import Mathlib

/-!
Shallow embedding of `FUEL_APP.py` (Fuel Pressure Diagnostic Tool).

The repository is a single Streamlit script.  Its computational core is the
function `create_plots` (source lines 66-121), which reads fixed columns from
two uploaded CSV tables, smooths the pressure traces with
`scipy.signal.savgol_filter(x, 9, 3)`, and assembles two plotly figures
(shapes = shaded bands, annotations = band labels / callouts, traces = raw
and smoothed curves plus extremum markers).  The PDF export block
(lines 151-172) wraps the two figures into a two-page landscape PDF.

Modelling choices:
* Python floats are modelled as exact rationals `ℚ`.
* A CSV cell is a `Val`: either a number or a non-numeric string (pandas
  leaves a column that fails numeric parsing as object dtype of strings).
* A pandas `DataFrame` is a list of named columns; `df["c"]` is `getCol`,
  which on a missing column raises `KeyError` carrying the column name.
* `savgol_filter(x, 9, 3)` is an external scipy routine.  Its input
  validation is modelled faithfully (`savgol_input`): the cast of the data to
  float fails on the first non-numeric value with a message naming that
  value, and in the default mode a window length 9 greater than the data
  size raises the window-length `ValueError`.  The numeric smoothing itself
  is kept abstract: `create_plots` takes the smoothing map as the parameter
  `smooth`, so every theorem below holds for the actual filter.
* `numpy.argmax` / `pandas.Series.argmax` (and the `argmin` versions) return
  the position of the first occurrence of the extremum; `argmax` / `argmin`
  below model exactly that scan.
* Of each plotly object we keep the fields the specification talks about:
  for shapes the x extent, the two y bounds and the fill colour; for
  annotations the y position, text, colour and x position; for traces the
  x/y data, name, mode and text labels; for a figure its shapes,
  annotations, traces and title (the `apply_high_contrast_style` call sets
  the bolded title; the remaining style attributes are constants that no
  claim mentions).
-/

/-- A CSV cell: a numeric value, or a string that does not parse as a
number. -/
inductive Val where
  | num (q : ℚ)
  | str (s : String)
deriving DecidableEq, Repr

/-- A rectangular table: named columns, as produced by `pandas.read_csv`. -/
structure DataFrame where
  cols : List (String × List Val)
deriving DecidableEq

/-- Column lookup, `df[name]` without the raising behaviour. -/
def DataFrame.lookup (df : DataFrame) (name : String) : Option (List Val) :=
  (df.cols.find? (fun c => c.1 == name)).map Prod.snd

/-- `df[name]` (source line 71 / 106): a missing column raises `KeyError`
naming the column. -/
def DataFrame.getCol (df : DataFrame) (name : String) : Except String (List Val) :=
  match df.lookup name with
  | some c => .ok c
  | none => .error ("KeyError: " ++ name)

/-- Cast of a column to float, as `numpy` does inside `savgol_filter`:
fails at the first non-numeric value, naming it. -/
def to_float_list : List Val → Except String (List ℚ)
  | [] => .ok []
  | .num q :: rest => (to_float_list rest).map (fun qs => q :: qs)
  | .str s :: _ => .error ("could not convert string to float: " ++ s)

/-- Error message raised by `savgol_filter` when the window (9) exceeds the
number of samples. -/
def window_err : String :=
  "If mode is interp, window_length must be less than or equal to the size of x."

/-- Input validation performed by `savgol_filter(x, 9, 3)` (source lines 72
and 107): cast the data to float, then require at least 9 samples.  The
smoothing computation itself stays abstract (`smooth` parameter of
`create_plots`). -/
def savgol_input (xs : List Val) : Except String (List ℚ) :=
  match to_float_list xs with
  | .error e => .error e
  | .ok qs => if qs.length < 9 then .error window_err else .ok qs

/-- Index of the first occurrence of the maximum, as `numpy.ndarray.argmax`
and `pandas.Series.argmax` compute it (source lines 95 and 99). -/
def argmax : List ℚ → Nat
  | [] => 0
  | [_] => 0
  | x :: y :: xs =>
    let j := argmax (y :: xs)
    if (y :: xs).getD j 0 > x then j + 1 else 0

/-- Index of the first occurrence of the minimum, as `argmin` computes it
(source line 116). -/
def argmin : List ℚ → Nat
  | [] => 0
  | [_] => 0
  | x :: y :: xs =>
    let j := argmin (y :: xs)
    if (y :: xs).getD j 0 < x then j + 1 else 0

/-- Python `f"{v:.2f}"`: fixed two-decimal rendering (ties rounded up; no
claim depends on the tie direction). -/
def format2 (q : ℚ) : String :=
  let n : ℤ := ⌊q * 100 + 1 / 2⌋
  let i := n / 100
  let f := (n % 100).toNat
  toString i ++ "." ++ (if f < 10 then "0" else "") ++ toString f

/-- A plotly `rect` shape added by `fig.add_shape` (the shaded band). -/
structure Shape where
  x0 : Val
  x1 : Val
  y0 : ℚ
  y1 : ℚ
  fillcolor : String
deriving DecidableEq

/-- A plotly text overlay added by `add_high_vis_label`. -/
structure Annot where
  y : ℚ
  text : String
  color : String
  xpos : ℚ
deriving DecidableEq

/-- A plotly scatter trace (curves and markers). -/
structure Trace where
  x : List Val
  y : List Val
  name : String
  mode : String
  text : List String
deriving DecidableEq

/-- Placeholder trace used only as the default of `List.getD`. -/
def dummyTrace : Trace :=
  { x := [], y := [], name := "", mode := "", text := [] }

/-- One chart: shapes (bands), annotations (band labels and callouts),
traces, and the bold title set by `apply_high_contrast_style`. -/
structure Figure where
  shapes : List Shape
  annots : List Annot
  traces : List Trace
  title : String
deriving DecidableEq

/-- The five display toggles, passed positionally as
`[un_p, un_s, met_b, id_p, id_s]` (source lines 67 and 146). -/
structure Opts where
  un_p : Bool
  un_s : Bool
  met_b : Bool
  id_p : Bool
  id_s : Bool
deriving DecidableEq

/-- `add_high_vis_label` (source lines 58-63): a bold text overlay at a
given y value; the default x position in the source is 0.01, the metered
callouts pass 0.88. -/
def add_high_vis_label (y_val : ℚ) (label_text : String) (label_color : String)
    (x_pos : ℚ) : Annot :=
  { y := y_val, text := "<b>" ++ label_text ++ "</b>", color := label_color,
    xpos := x_pos }

/-- A band rectangle spanning the full time extent of its chart:
`x0 = t.iloc[0]`, `x1 = t.iloc[-1]`. -/
def band_shape (t : List Val) (y0 y1 : ℚ) (fc : String) : Shape :=
  { x0 := t.getD 0 (.num 0), x1 := t.getD (t.length - 1) (.num 0),
    y0 := y0, y1 := y1, fillcolor := fc }

/-- The columns `create_plots` reads, plus the float casts made by the two
`savgol_filter` calls. -/
structure RunData where
  t_m : List Val
  u_m : List Val
  mt_m : List Val
  u_mq : List ℚ
  mt_mq : List ℚ
  t_i : List Val
  u_i : List Val
  u_iq : List ℚ
deriving DecidableEq

/-- The fallible part of `create_plots`, in source order: the three column
reads of the max-RPM table (line 71), the two smoothing casts (line 72),
the two column reads of the idle table (line 106) and its smoothing cast
(line 107).  Every other step of `create_plots` is pure figure
construction. -/
def read_inputs (df_max df_idle : DataFrame) : Except String RunData := do
  let t_m ← df_max.getCol "Time (s)"
  let u_m ← df_max.getCol "UNMETERED [PSI]"
  let mt_m ← df_max.getCol "METERED [PSI]"
  let u_mq ← savgol_input u_m
  let mt_mq ← savgol_input mt_m
  let t_i ← df_idle.getCol "Time (s)"
  let u_i ← df_idle.getCol "UNMETERED [PSI]"
  let u_iq ← savgol_input u_i
  return ⟨t_m, u_m, mt_m, u_mq, mt_mq, t_i, u_i, u_iq⟩

/-- The pure figure construction of `create_plots` (source lines 66-121)
once the inputs are read: bands and labels gated by the toggles, the four
(resp. two) curve traces, and the extremum marker traces. -/
def build_figs (smooth : List ℚ → List ℚ) (d : RunData) (opts : Opts)
    (registration : String) (factor_label : String) (factor : ℚ) :
    Figure × Figure :=
  let met_low := 19 * factor
  let met_high := (213 / 10 : ℚ) * factor
  let u_sm := smooth d.u_mq
  let mt_sm := smooth d.mt_mq
  let shapes_max :=
    (if opts.un_s then [band_shape d.t_m 21 24 "#FFD700"] else []) ++
    (if opts.un_p then [band_shape d.t_m 28 30 "#32CD32"] else []) ++
    (if opts.met_b then [band_shape d.t_m met_low met_high "#00BFFF"] else [])
  let annots_max :=
    (if opts.un_s then
      [add_high_vis_label (45 / 2) "Turbo UNMETERED (21-24)" "#8B4513" (1 / 100)]
     else []) ++
    (if opts.un_p then
      [add_high_vis_label 29 "Non-Turbo UNMETERED (28-30)" "#006400" (1 / 100)]
     else []) ++
    (if opts.met_b then
      [add_high_vis_label ((met_low + met_high) / 2)
        ("METERED (" ++ factor_label ++ ")") "#00008B" (1 / 100)] ++
      (if factor ≠ 1 then
        [add_high_vis_label met_high ("Max: " ++ format2 met_high) "#00008B" (22 / 25),
         add_high_vis_label met_low ("Min: " ++ format2 met_low) "#00008B" (22 / 25)]
       else [])
     else [])
  let m_un := argmax u_sm
  let m_mt := argmax mt_sm
  let r_un := argmax d.u_mq
  let r_mt := argmax d.mt_mq
  let traces_max : List Trace := [
    { x := d.t_m, y := d.u_m, name := "Raw UNM", mode := "lines", text := [] },
    { x := d.t_m, y := d.mt_m, name := "Raw MET", mode := "lines", text := [] },
    { x := d.t_m, y := u_sm.map Val.num, name := "<b>Smooth UNM</b>",
      mode := "lines", text := [] },
    { x := d.t_m, y := mt_sm.map Val.num, name := "<b>Smooth MET</b>",
      mode := "lines", text := [] },
    { x := [d.t_m.getD m_un (.num 0)], y := [.num (u_sm.getD m_un 0)],
      name := "Max Smooth UNM", mode := "markers+text",
      text := ["<b>" ++ format2 (u_sm.getD m_un 0) ++ "</b>"] },
    { x := [d.t_m.getD m_mt (.num 0)], y := [.num (mt_sm.getD m_mt 0)],
      name := "Max Smooth MET", mode := "markers+text",
      text := ["<b>" ++ format2 (mt_sm.getD m_mt 0) ++ "</b>"] },
    { x := [d.t_m.getD r_un (.num 0)], y := [d.u_m.getD r_un (.num 0)],
      name := "Max Raw UNM", mode := "markers+text",
      text := [format2 (d.u_mq.getD r_un 0)] },
    { x := [d.t_m.getD r_mt (.num 0)], y := [d.mt_m.getD r_mt (.num 0)],
      name := "Max Raw MET", mode := "markers+text",
      text := [format2 (d.mt_mq.getD r_mt 0)] } ]
  let fig_max : Figure :=
    { shapes := shapes_max, annots := annots_max, traces := traces_max,
      title := "<b>Max RPM Fuel Pressure - " ++ registration ++ "</b>" }
  let u_si := smooth d.u_iq
  let shapes_idle :=
    if opts.id_p then [band_shape d.t_i 8 10 "#32CD32"] else []
  let annots_idle :=
    if opts.id_p then
      [add_high_vis_label 9 "Non-Turbo Idle (8-10)" "#006400" (1 / 100)]
    else []
  let mi_un := argmin u_si
  let mi_r := argmin d.u_iq
  let traces_idle : List Trace := [
    { x := d.t_i, y := d.u_i, name := "Raw UNM", mode := "lines", text := [] },
    { x := d.t_i, y := u_si.map Val.num, name := "<b>Smooth UNM</b>",
      mode := "lines", text := [] },
    { x := [d.t_i.getD mi_un (.num 0)], y := [.num (u_si.getD mi_un 0)],
      name := "Min Smooth UNM", mode := "markers+text",
      text := ["<b>" ++ format2 (u_si.getD mi_un 0) ++ "</b>"] },
    { x := [d.t_i.getD mi_r (.num 0)], y := [d.u_i.getD mi_r (.num 0)],
      name := "Min Raw UNM", mode := "markers+text",
      text := [format2 (d.u_iq.getD mi_r 0)] } ]
  let fig_idle : Figure :=
    { shapes := shapes_idle, annots := annots_idle, traces := traces_idle,
      title := "<b>Idle RPM Fuel Pressure - " ++ registration ++ "</b>" }
  (fig_max, fig_idle)

/-- `create_plots` (source lines 66-121): read the columns — any failure
aborts the call with the raised message, producing no figures — then build
the two figures. -/
def create_plots (smooth : List ℚ → List ℚ) (df_max df_idle : DataFrame)
    (opts : Opts) (registration : String) (factor_label : String)
    (factor : ℚ) : Except String (Figure × Figure) :=
  (read_inputs df_max df_idle).map
    (fun d => build_figs smooth d opts registration factor_label factor)

/-- The fixed correction table `CORRECTION_MAP` (source lines 36-44). -/
def CORRECTION_MAP : List (String × ℚ) :=
  [("Rated RPM (1.000)", 1),
   ("-20 RPM (.991)", 991 / 1000),
   ("-40 RPM (.982)", 982 / 1000),
   ("-60 RPM (.973)", 973 / 1000),
   ("-80 RPM (.964)", 964 / 1000),
   ("-100 RPM (.955)", 955 / 1000),
   ("-120 RPM (.946)", 946 / 1000)]

/-- One page of the exported report (source lines 155-164): the chart
rasterised at 1200x700 with scale 2, a bold 16pt title line and a plain
10pt condition/timestamp line. -/
structure PdfPage where
  title : String
  titleBold : Bool
  subtitle : String
  imgWidth : Nat
  imgHeight : Nat
  imgScale : Nat
  figure : Figure
deriving DecidableEq

/-- The assembled report and its download metadata (source lines 151-172). -/
structure PdfReport where
  orientation : String
  pageFormat : String
  pages : List PdfPage
  filename : String
  mime : String
deriving DecidableEq

/-- The PDF export block (source lines 151-172): a landscape A4 report with
one page per chart, in the order max-RPM then idle, offered for download as
`<registration>_Report.pdf`. -/
def pdf_export (f_m f_idle : Figure) (reg : String) (rpm_drop : String)
    (ts : String) : PdfReport :=
  { orientation := "L",
    pageFormat := "A4",
    pages := [("Max RPM", f_m), ("Idle RPM", f_idle)].map (fun p =>
      { title := p.1 ++ " | " ++ reg,
        titleBold := true,
        subtitle := "Condition: " ++ rpm_drop ++ " | Generated: " ++ ts,
        imgWidth := 1200, imgHeight := 700, imgScale := 2,
        figure := p.2 }),
    filename := reg ++ "_Report.pdf",
    mime := "application/pdf" }

/-- String containment, for the spec sentence about the page title holding
the literal substring. -/
def contains_sub (sub whole : String) : Prop :=
  ∃ a b : String, whole = a ++ sub ++ b

/-- True exactly on successful results. -/
def exceptOk {α : Type} (e : Except String α) : Bool :=
  match e with
  | .ok _ => true
  | .error _ => false

/-- Time column 0..8 for the nine-sample test tables. -/
def timeCol : List Val :=
  [.num 0, .num 1, .num 2, .num 3, .num 4, .num 5, .num 6, .num 7, .num 8]

/-- A nine-sample constant pressure column. -/
def constCol (q : ℚ) : List Val := List.replicate 9 (.num q)

/-- The synthetic max-RPM series of the spec: `[10,10,10,50,10,10,10,10,10]`. -/
def spikeCol : List Val :=
  [.num 10, .num 10, .num 10, .num 50, .num 10, .num 10, .num 10, .num 10,
   .num 10]

/-- An idle pressure series whose minimum 8 occurs at indices 1 and 3. -/
def tieCol : List Val :=
  [.num 9, .num 8, .num 9, .num 8, .num 9, .num 9, .num 9, .num 9, .num 9]

/-- A well-formed nine-row max-RPM table. -/
def df_max_good : DataFrame :=
  ⟨[("Time (s)", timeCol), ("UNMETERED [PSI]", constCol 29),
    ("METERED [PSI]", constCol 20)]⟩

/-- A well-formed nine-row idle table (no metered column is needed). -/
def df_idle_good : DataFrame :=
  ⟨[("Time (s)", timeCol), ("UNMETERED [PSI]", tieCol)]⟩

/-- The max-RPM table carrying the spec's synthetic spike series. -/
def df_max_spike : DataFrame :=
  ⟨[("Time (s)", timeCol), ("UNMETERED [PSI]", spikeCol),
    ("METERED [PSI]", constCol 20)]⟩

/-- A max-RPM table missing the `METERED [PSI]` column. -/
def df_max_noMet : DataFrame :=
  ⟨[("Time (s)", timeCol), ("UNMETERED [PSI]", constCol 29)]⟩

/-- A max-RPM table missing the `Time (s)` column. -/
def df_max_noTime : DataFrame :=
  ⟨[("UNMETERED [PSI]", constCol 29), ("METERED [PSI]", constCol 20)]⟩

/-- A max-RPM table whose time column holds a non-numeric value; the
pressure columns are valid. -/
def df_max_strTime : DataFrame :=
  ⟨[("Time (s)", .str "abc" :: (timeCol.drop 1)),
    ("UNMETERED [PSI]", constCol 29), ("METERED [PSI]", constCol 20)]⟩

/-- A pressure column holding a non-numeric value. -/
def badValCol : List Val :=
  [.num 29, .num 29, .str "bad", .num 29, .num 29, .num 29, .num 29,
   .num 29, .num 29]

/-- A max-RPM table whose unmetered column holds a non-numeric value. -/
def df_max_badVal : DataFrame :=
  ⟨[("Time (s)", timeCol), ("UNMETERED [PSI]", badValCol),
    ("METERED [PSI]", constCol 20)]⟩

/-- A max-RPM table with only one row: too short for the 9-sample window. -/
def df_max_short : DataFrame :=
  ⟨[("Time (s)", [.num 0]), ("UNMETERED [PSI]", [.num 29]),
    ("METERED [PSI]", [.num 20])]⟩

/-- A max-RPM table missing the `UNMETERED [PSI]` column. -/
def df_max_noUnm : DataFrame :=
  ⟨[("Time (s)", timeCol), ("METERED [PSI]", constCol 20)]⟩

/-- A max-RPM table whose metered column holds a non-numeric value. -/
def df_max_badMet : DataFrame :=
  ⟨[("Time (s)", timeCol), ("UNMETERED [PSI]", constCol 29),
    ("METERED [PSI]", badValCol)]⟩

/-- An idle table missing the `Time (s)` column. -/
def df_idle_noTime : DataFrame := ⟨[("UNMETERED [PSI]", tieCol)]⟩

/-- An idle table missing the `UNMETERED [PSI]` column. -/
def df_idle_noUnm : DataFrame := ⟨[("Time (s)", timeCol)]⟩

/-- An idle table whose unmetered column holds a non-numeric value. -/
def df_idle_badVal : DataFrame :=
  ⟨[("Time (s)", timeCol), ("UNMETERED [PSI]", badValCol)]⟩

/-- All five display toggles off. -/
def allOff : Opts := ⟨false, false, false, false, false⟩

/-- All five display toggles on. -/
def allOn : Opts := ⟨true, true, true, true, true⟩

/-- An idle table carrying an extra (unread) metered column. -/
def df_idle_extra : DataFrame :=
  ⟨[("Time (s)", timeCol), ("UNMETERED [PSI]", tieCol),
    ("METERED [PSI]", constCol 20)]⟩

/-- The run data read from `df_max_good` and `df_idle_good`. -/
def runDataGood : RunData :=
  ⟨timeCol, constCol 29, constCol 20, List.replicate 9 29, List.replicate 9 20,
   timeCol, tieCol, [9, 8, 9, 8, 9, 9, 9, 9, 9]⟩

/-- The run data read from `df_max_spike` and `df_idle_good`. -/
def runDataSpike : RunData :=
  ⟨timeCol, spikeCol, constCol 20, [10, 10, 10, 50, 10, 10, 10, 10, 10],
   List.replicate 9 20, timeCol, tieCol, [9, 8, 9, 8, 9, 9, 9, 9, 9]⟩

/-- The figures built from the good tables with every toggle on and no
correction (identity standing in for the smoothing map). -/
def figs_good : Figure × Figure :=
  build_figs (fun l => l) runDataGood allOn "" "Rated RPM (1.000)" 1

/-- The same figures with every toggle off. -/
def figs_good_off : Figure × Figure :=
  build_figs (fun l => l) runDataGood allOff "" "Rated RPM (1.000)" 1

/-- The same figures with the -120 RPM correction factor selected. -/
def figs_corr : Figure × Figure :=
  build_figs (fun l => l) runDataGood allOn "" "-120 RPM (.946)" (946 / 1000)

theorem exceptMap_ok_iff {α β : Type} (e : Except String α) (f : α → β) (b : β) :
    e.map f = Except.ok b ↔ ∃ a, e = Except.ok a ∧ b = f a := by
  cases e <;> simp [Except.map, eq_comm]

theorem exceptMap_error_iff {α β : Type} (e : Except String α) (f : α → β) (msg : String) :
    e.map f = Except.error msg ↔ e = Except.error msg := by
  cases e <;> simp [Except.map]

theorem exceptBind_ok_iff {α β : Type} (e : Except String α)
    (f : α → Except String β) (b : β) :
    (e >>= f) = Except.ok b ↔ ∃ a, e = Except.ok a ∧ f a = Except.ok b := by
  cases e <;> simp [Bind.bind, Except.bind]

theorem getCol_ok_iff (df : DataFrame) (n : String) (c : List Val) :
    df.getCol n = Except.ok c ↔ df.lookup n = some c := by
  unfold DataFrame.getCol
  cases df.lookup n <;> simp

theorem read_inputs_ok_iff (dfm dfi : DataFrame) (d : RunData) :
    read_inputs dfm dfi = Except.ok d ↔
      dfm.lookup "Time (s)" = some d.t_m ∧
      dfm.lookup "UNMETERED [PSI]" = some d.u_m ∧
      dfm.lookup "METERED [PSI]" = some d.mt_m ∧
      savgol_input d.u_m = Except.ok d.u_mq ∧
      savgol_input d.mt_m = Except.ok d.mt_mq ∧
      dfi.lookup "Time (s)" = some d.t_i ∧
      dfi.lookup "UNMETERED [PSI]" = some d.u_i ∧
      savgol_input d.u_i = Except.ok d.u_iq := by
  cases d with
  | mk t u mt uq mtq ti ui uiq =>
    simp only [read_inputs, exceptBind_ok_iff, getCol_ok_iff]
    constructor
    · rintro ⟨a1, h1, a2, h2, a3, h3, a4, h4, a5, h5, a6, h6, a7, h7, a8, h8, hp⟩
      simp only [pure, Except.pure, Except.ok.injEq, RunData.mk.injEq] at hp
      obtain ⟨rfl, rfl, rfl, rfl, rfl, rfl, rfl, rfl⟩ := hp
      exact ⟨h1, h2, h3, h4, h5, h6, h7, h8⟩
    · rintro ⟨h1, h2, h3, h4, h5, h6, h7, h8⟩
      exact ⟨t, h1, u, h2, mt, h3, uq, h4, mtq, h5, ti, h6, ui, h7, uiq, h8, rfl⟩

theorem create_plots_ok_iff (smooth : List ℚ → List ℚ) (dfm dfi : DataFrame)
    (opts : Opts) (reg lbl : String) (f : ℚ) (figs : Figure × Figure) :
    create_plots smooth dfm dfi opts reg lbl f = Except.ok figs ↔
      ∃ d, read_inputs dfm dfi = Except.ok d ∧
        figs = build_figs smooth d opts reg lbl f := by
  unfold create_plots
  exact exceptMap_ok_iff ..

theorem create_plots_error_iff (smooth : List ℚ → List ℚ) (dfm dfi : DataFrame)
    (opts : Opts) (reg lbl : String) (f : ℚ) (msg : String) :
    create_plots smooth dfm dfi opts reg lbl f = Except.error msg ↔
      read_inputs dfm dfi = Except.error msg := by
  unfold create_plots
  exact exceptMap_error_iff ..

theorem argmax_cons_cons (x y : ℚ) (ys : List ℚ) :
    argmax (x :: y :: ys) =
      if (y :: ys).getD (argmax (y :: ys)) 0 > x then argmax (y :: ys) + 1
      else 0 := rfl

theorem argmin_cons_cons (x y : ℚ) (ys : List ℚ) :
    argmin (x :: y :: ys) =
      if (y :: ys).getD (argmin (y :: ys)) 0 < x then argmin (y :: ys) + 1
      else 0 := rfl

theorem argmax_lt_length (l : List ℚ) (h : l ≠ []) : argmax l < l.length := by
  induction l with
  | nil => exact absurd rfl h
  | cons x xs ih =>
    cases xs with
    | nil => simp [argmax]
    | cons y ys =>
      have hy := ih (by simp)
      rw [argmax_cons_cons]
      by_cases hgt : (y :: ys).getD (argmax (y :: ys)) 0 > x
      · rw [if_pos hgt]
        exact Nat.succ_lt_succ hy
      · rw [if_neg hgt]
        simp

theorem getD_argmax_le (l : List ℚ) (i : ℕ) (hi : i < l.length) :
    l.getD i 0 ≤ l.getD (argmax l) 0 := by
  induction l generalizing i with
  | nil => simp at hi
  | cons x xs ih =>
    cases xs with
    | nil =>
      have hz : i = 0 := Nat.lt_one_iff.mp (by simpa using hi)
      subst hz
      simp [argmax]
    | cons y ys =>
      rw [argmax_cons_cons]
      by_cases hgt : (y :: ys).getD (argmax (y :: ys)) 0 > x
      · rw [if_pos hgt]
        cases i with
        | zero =>
          rw [List.getD_cons_zero, List.getD_cons_succ]
          exact le_of_lt hgt
        | succ i' =>
          rw [List.getD_cons_succ, List.getD_cons_succ]
          exact ih i' (Nat.lt_of_succ_lt_succ hi)
      · rw [if_neg hgt]
        push_neg at hgt
        cases i with
        | zero =>
          rw [List.getD_cons_zero]
        | succ i' =>
          rw [List.getD_cons_succ, List.getD_cons_zero]
          exact le_trans (ih i' (Nat.lt_of_succ_lt_succ hi)) hgt

theorem argmax_le_of_getD_eq (l : List ℚ) (i : ℕ) (hi : i < l.length)
    (hv : l.getD i 0 = l.getD (argmax l) 0) : argmax l ≤ i := by
  induction l generalizing i with
  | nil => simp at hi
  | cons x xs ih =>
    cases xs with
    | nil => simp [argmax]
    | cons y ys =>
      rw [argmax_cons_cons] at hv ⊢
      by_cases hgt : (y :: ys).getD (argmax (y :: ys)) 0 > x
      · rw [if_pos hgt] at hv ⊢
        cases i with
        | zero =>
          rw [List.getD_cons_zero, List.getD_cons_succ] at hv
          exact absurd hgt (by rw [← hv]; exact lt_irrefl x)
        | succ i' =>
          rw [List.getD_cons_succ, List.getD_cons_succ] at hv
          exact Nat.succ_le_succ (ih i' (Nat.lt_of_succ_lt_succ hi) hv)
      · rw [if_neg hgt]
        exact Nat.zero_le i

theorem argmin_lt_length (l : List ℚ) (h : l ≠ []) : argmin l < l.length := by
  induction l with
  | nil => exact absurd rfl h
  | cons x xs ih =>
    cases xs with
    | nil => simp [argmin]
    | cons y ys =>
      have hy := ih (by simp)
      rw [argmin_cons_cons]
      by_cases hlt : (y :: ys).getD (argmin (y :: ys)) 0 < x
      · rw [if_pos hlt]
        exact Nat.succ_lt_succ hy
      · rw [if_neg hlt]
        simp

theorem le_getD_argmin (l : List ℚ) (i : ℕ) (hi : i < l.length) :
    l.getD (argmin l) 0 ≤ l.getD i 0 := by
  induction l generalizing i with
  | nil => simp at hi
  | cons x xs ih =>
    cases xs with
    | nil =>
      have hz : i = 0 := Nat.lt_one_iff.mp (by simpa using hi)
      subst hz
      simp [argmin]
    | cons y ys =>
      rw [argmin_cons_cons]
      by_cases hlt : (y :: ys).getD (argmin (y :: ys)) 0 < x
      · rw [if_pos hlt]
        cases i with
        | zero =>
          rw [List.getD_cons_zero, List.getD_cons_succ]
          exact le_of_lt hlt
        | succ i' =>
          rw [List.getD_cons_succ, List.getD_cons_succ]
          exact ih i' (Nat.lt_of_succ_lt_succ hi)
      · rw [if_neg hlt]
        push_neg at hlt
        cases i with
        | zero =>
          rw [List.getD_cons_zero]
        | succ i' =>
          rw [List.getD_cons_zero, List.getD_cons_succ]
          exact le_trans hlt (ih i' (Nat.lt_of_succ_lt_succ hi))

theorem argmin_le_of_getD_eq (l : List ℚ) (i : ℕ) (hi : i < l.length)
    (hv : l.getD i 0 = l.getD (argmin l) 0) : argmin l ≤ i := by
  induction l generalizing i with
  | nil => simp at hi
  | cons x xs ih =>
    cases xs with
    | nil => simp [argmin]
    | cons y ys =>
      rw [argmin_cons_cons] at hv ⊢
      by_cases hlt : (y :: ys).getD (argmin (y :: ys)) 0 < x
      · rw [if_pos hlt] at hv ⊢
        cases i with
        | zero =>
          rw [List.getD_cons_zero, List.getD_cons_succ] at hv
          exact absurd hlt (by rw [← hv]; exact lt_irrefl x)
        | succ i' =>
          rw [List.getD_cons_succ, List.getD_cons_succ] at hv
          exact Nat.succ_le_succ (ih i' (Nat.lt_of_succ_lt_succ hi) hv)
      · rw [if_neg hlt]
        exact Nat.zero_le i

theorem build_figs_max_shapes (smooth : List ℚ → List ℚ) (d : RunData)
    (opts : Opts) (reg lbl : String) (f : ℚ) :
    (build_figs smooth d opts reg lbl f).1.shapes =
      (if opts.un_s then [band_shape d.t_m 21 24 "#FFD700"] else []) ++
      (if opts.un_p then [band_shape d.t_m 28 30 "#32CD32"] else []) ++
      (if opts.met_b then
        [band_shape d.t_m (19 * f) ((213 / 10) * f) "#00BFFF"] else []) := rfl

theorem build_figs_max_annots (smooth : List ℚ → List ℚ) (d : RunData)
    (opts : Opts) (reg lbl : String) (f : ℚ) :
    (build_figs smooth d opts reg lbl f).1.annots =
      (if opts.un_s then
        [add_high_vis_label (45 / 2) "Turbo UNMETERED (21-24)" "#8B4513" (1 / 100)]
       else []) ++
      (if opts.un_p then
        [add_high_vis_label 29 "Non-Turbo UNMETERED (28-30)" "#006400" (1 / 100)]
       else []) ++
      (if opts.met_b then
        [add_high_vis_label ((19 * f + (213 / 10) * f) / 2)
          ("METERED (" ++ lbl ++ ")") "#00008B" (1 / 100)] ++
        (if f ≠ 1 then
          [add_high_vis_label ((213 / 10) * f)
            ("Max: " ++ format2 ((213 / 10) * f)) "#00008B" (22 / 25),
           add_high_vis_label (19 * f)
            ("Min: " ++ format2 (19 * f)) "#00008B" (22 / 25)]
         else [])
       else []) := rfl

theorem build_figs_idle_shapes (smooth : List ℚ → List ℚ) (d : RunData)
    (opts : Opts) (reg lbl : String) (f : ℚ) :
    (build_figs smooth d opts reg lbl f).2.shapes =
      (if opts.id_p then [band_shape d.t_i 8 10 "#32CD32"] else []) := rfl

theorem build_figs_idle_annots (smooth : List ℚ → List ℚ) (d : RunData)
    (opts : Opts) (reg lbl : String) (f : ℚ) :
    (build_figs smooth d opts reg lbl f).2.annots =
      (if opts.id_p then
        [add_high_vis_label 9 "Non-Turbo Idle (8-10)" "#006400" (1 / 100)]
       else []) := rfl

theorem build_figs_traces_opts (smooth : List ℚ → List ℚ) (d : RunData)
    (o1 o2 : Opts) (reg lbl : String) (f : ℚ) :
    (build_figs smooth d o1 reg lbl f).1.traces
        = (build_figs smooth d o2 reg lbl f).1.traces ∧
    (build_figs smooth d o1 reg lbl f).2.traces
        = (build_figs smooth d o2 reg lbl f).2.traces :=
  ⟨rfl, rfl⟩

theorem build_figs_traces_factor (smooth : List ℚ → List ℚ) (d : RunData)
    (opts : Opts) (reg lbl lbl2 : String) (f f2 : ℚ) :
    (build_figs smooth d opts reg lbl f).1.traces
        = (build_figs smooth d opts reg lbl2 f2).1.traces ∧
    (build_figs smooth d opts reg lbl f).2.traces
        = (build_figs smooth d opts reg lbl2 f2).2.traces ∧
    (build_figs smooth d opts reg lbl f).2.shapes
        = (build_figs smooth d opts reg lbl2 f2).2.shapes ∧
    (build_figs smooth d opts reg lbl f).2.annots
        = (build_figs smooth d opts reg lbl2 f2).2.annots :=
  ⟨rfl, rfl, rfl, rfl⟩

theorem to_float_list_error (u : List Val) (e : String)
    (h : to_float_list u = Except.error e) :
    ∃ s, Val.str s ∈ u ∧ e = "could not convert string to float: " ++ s := by
  induction u with
  | nil => simp [to_float_list] at h
  | cons v rest ih =>
    cases v with
    | num q =>
      rw [to_float_list, exceptMap_error_iff] at h
      obtain ⟨s, hs, he⟩ := ih h
      exact ⟨s, List.mem_cons_of_mem _ hs, he⟩
    | str s =>
      rw [to_float_list] at h
      exact ⟨s, List.mem_cons_self .., (Except.error.injEq .. ▸ h).symm⟩

theorem to_float_list_all_num (u : List Val)
    (h : ∀ v ∈ u, ∃ q, v = Val.num q) :
    ∃ qs, to_float_list u = Except.ok qs ∧ qs.length = u.length := by
  induction u with
  | nil => exact ⟨[], rfl, rfl⟩
  | cons v rest ih =>
    obtain ⟨q, rfl⟩ := h v (List.mem_cons_self ..)
    obtain ⟨qs, hok, hlen⟩ := ih (fun w hw => h w (List.mem_cons_of_mem _ hw))
    exact ⟨q :: qs, by rw [to_float_list, hok]; rfl, by simp [hlen]⟩

/-- C2: the fifth display toggle (Turbo Idle 7-9) is never wired into band
rendering: two runs of `create_plots` on identical inputs that differ only
in the fifth toggle return identical output figures, and every shape ever
drawn on the idle chart is the non-turbo 8.0-10.0 band. -/
theorem fifth_toggle_unused (smooth : List ℚ → List ℚ) (dfm dfi : DataFrame)
    (o1 o2 : Opts) (reg lbl : String) (f : ℚ)
    (hp : o1.un_p = o2.un_p) (hs : o1.un_s = o2.un_s)
    (hm : o1.met_b = o2.met_b) (hi : o1.id_p = o2.id_p) :
    create_plots smooth dfm dfi o1 reg lbl f
        = create_plots smooth dfm dfi o2 reg lbl f ∧
    ∀ figs, create_plots smooth dfm dfi o1 reg lbl f = Except.ok figs →
      ∀ s ∈ figs.2.shapes, s.y0 = 8 ∧ s.y1 = 10 := by
  obtain ⟨p1, s1, m1, i1, e1⟩ := o1
  obtain ⟨p2, s2, m2, i2, e2⟩ := o2
  dsimp only at hp hs hm hi
  subst hp
  subst hs
  subst hm
  subst hi
  refine ⟨rfl, ?_⟩
  intro figs hok s hsmem
  obtain ⟨d0, hd, rfl⟩ := (create_plots_ok_iff ..).mp hok
  rw [build_figs_idle_shapes] at hsmem
  cases i1 with
  | false => simp at hsmem
  | true =>
    simp at hsmem
    subst hsmem
    exact ⟨rfl, rfl⟩

/-- Witness for C2 at a concrete input: flipping only the fifth toggle
leaves the result of `create_plots` unchanged. -/
theorem fifth_toggle_unused_witness :
    create_plots (fun l => l) df_max_good df_idle_good
        ⟨true, false, true, true, false⟩ "" "Rated RPM (1.000)" 1
      = create_plots (fun l => l) df_max_good df_idle_good
        ⟨true, false, true, true, true⟩ "" "Rated RPM (1.000)" 1 :=
  (fifth_toggle_unused (fun l => l) df_max_good df_idle_good
    ⟨true, false, true, true, false⟩ ⟨true, false, true, true, true⟩
    "" "Rated RPM (1.000)" 1 rfl rfl rfl rfl).1

/-- C3: for every entry of the correction table, the metered band drawn by
the engine has bounds `19.0 * f` and `21.3 * f`, and the lower bound is
strictly below the upper bound. -/
theorem metered_band_bounds (p : String × ℚ) (hp : p ∈ CORRECTION_MAP)
    (smooth : List ℚ → List ℚ) (dfm dfi : DataFrame) (opts : Opts)
    (reg : String) (figs : Figure × Figure) (hmet : opts.met_b = true)
    (hok : create_plots smooth dfm dfi opts reg p.1 p.2 = Except.ok figs) :
    ∃ s ∈ figs.1.shapes,
      s.y0 = 19 * p.2 ∧ s.y1 = (213 / 10) * p.2 ∧ s.y0 < s.y1 := by
  obtain ⟨d0, hd, rfl⟩ := (create_plots_ok_iff ..).mp hok
  refine ⟨band_shape d0.t_m (19 * p.2) ((213 / 10) * p.2) "#00BFFF", ?_,
    rfl, rfl, ?_⟩
  · rw [build_figs_max_shapes, hmet]
    simp
  · show 19 * p.2 < (213 / 10) * p.2
    simp only [CORRECTION_MAP, List.mem_cons, List.not_mem_nil, or_false] at hp
    rcases hp with rfl | rfl | rfl | rfl | rfl | rfl | rfl <;> norm_num

/-- Witness for C3 at the default table entry and a concrete input. -/
theorem metered_band_bounds_witness :
    ∃ s ∈ figs_good.1.shapes,
      s.y0 = 19 * (("Rated RPM (1.000)", (1 : ℚ)).2)
        ∧ s.y1 = (213 / 10) * (("Rated RPM (1.000)", (1 : ℚ)).2)
        ∧ s.y0 < s.y1 :=
  metered_band_bounds ("Rated RPM (1.000)", 1) (by simp [CORRECTION_MAP])
    (fun l => l) df_max_good df_idle_good allOn "" figs_good rfl rfl

/-- C10: `create_plots` reads the `METERED [PSI]` column of the max-RPM
table unconditionally — if it is missing the call fails for every toggle
combination — while the idle table is only ever read through its
`Time (s)` and `UNMETERED [PSI]` columns. -/
theorem metered_column_unconditional (smooth : List ℚ → List ℚ)
    (dfm dfi dfi2 : DataFrame) (opts : Opts) (reg lbl : String) (f : ℚ) :
    (dfm.lookup "METERED [PSI]" = none →
      exceptOk (create_plots smooth dfm dfi opts reg lbl f) = false) ∧
    (dfi.lookup "Time (s)" = dfi2.lookup "Time (s)" →
      dfi.lookup "UNMETERED [PSI]" = dfi2.lookup "UNMETERED [PSI]" →
      create_plots smooth dfm dfi opts reg lbl f
        = create_plots smooth dfm dfi2 opts reg lbl f) := by
  constructor
  · intro hnone
    cases hc : create_plots smooth dfm dfi opts reg lbl f with
    | error e => rfl
    | ok figs =>
      obtain ⟨d0, hd, _⟩ := (create_plots_ok_iff ..).mp hc
      have hmt := ((read_inputs_ok_iff dfm dfi d0).mp hd).2.2.1
      rw [hnone] at hmt
      exact absurd hmt (by simp)
  · intro ht hu
    have h1 : dfi.getCol "Time (s)" = dfi2.getCol "Time (s)" := by
      unfold DataFrame.getCol
      rw [ht]
    have h2 : dfi.getCol "UNMETERED [PSI]" = dfi2.getCol "UNMETERED [PSI]" := by
      unfold DataFrame.getCol
      rw [hu]
    simp only [create_plots, read_inputs, h1, h2]

/-- Witness for C10: a max-RPM table without `METERED [PSI]` fails even
with the metered toggle off, and an extra metered column in the idle table
changes nothing. -/
theorem metered_column_unconditional_witness :
    exceptOk (create_plots (fun l => l) df_max_noMet df_idle_good allOff
        "" "" 1) = false ∧
    create_plots (fun l => l) df_max_good df_idle_good allOn "" "" 1
      = create_plots (fun l => l) df_max_good df_idle_extra allOn "" "" 1 :=
  ⟨(metered_column_unconditional (fun l => l) df_max_noMet df_idle_good
      df_idle_good allOff "" "" 1).1 rfl,
   (metered_column_unconditional (fun l => l) df_max_good df_idle_good
      df_idle_extra allOn "" "" 1).2 rfl rfl⟩

theorem max_shape_cases (smooth : List ℚ → List ℚ) (d : RunData) (opts : Opts)
    (reg lbl : String) (f : ℚ) (s : Shape)
    (hs : s ∈ (build_figs smooth d opts reg lbl f).1.shapes) :
    s = band_shape d.t_m 21 24 "#FFD700" ∨
    s = band_shape d.t_m 28 30 "#32CD32" ∨
    s = band_shape d.t_m (19 * f) ((213 / 10) * f) "#00BFFF" := by
  rw [build_figs_max_shapes] at hs
  rcases List.mem_append.mp hs with h | h
  · rcases List.mem_append.mp h with h2 | h2
    · left
      cases hc : opts.un_s <;> simp [hc] at h2
      exact h2
    · right
      left
      cases hc : opts.un_p <;> simp [hc] at h2
      exact h2
  · right
    right
    cases hc : opts.met_b <;> simp [hc] at h
    exact h

theorem idle_shape_cases (smooth : List ℚ → List ℚ) (d : RunData) (opts : Opts)
    (reg lbl : String) (f : ℚ) (s : Shape)
    (hs : s ∈ (build_figs smooth d opts reg lbl f).2.shapes) :
    s = band_shape d.t_i 8 10 "#32CD32" := by
  rw [build_figs_idle_shapes] at hs
  cases hc : opts.id_p <;> simp [hc] at hs
  exact hs

/-- C6: toggling bands is a pure visual overlay: runs that differ only in
the display toggles have identical trace lists (data, smoothed curves and
extremum markers) on both charts, and with all five toggles off the charts
carry zero band shapes. -/
theorem bands_pure_overlay (smooth : List ℚ → List ℚ) (dfm dfi : DataFrame)
    (o1 o2 : Opts) (reg lbl : String) (f : ℚ) (figs1 figs2 : Figure × Figure)
    (h1 : create_plots smooth dfm dfi o1 reg lbl f = Except.ok figs1)
    (h2 : create_plots smooth dfm dfi o2 reg lbl f = Except.ok figs2) :
    figs1.1.traces = figs2.1.traces ∧ figs1.2.traces = figs2.2.traces ∧
    (o1 = allOff → figs1.1.shapes = [] ∧ figs1.2.shapes = []) := by
  obtain ⟨d1, hd1, rfl⟩ := (create_plots_ok_iff ..).mp h1
  obtain ⟨d2, hd2, rfl⟩ := (create_plots_ok_iff ..).mp h2
  rw [hd1] at hd2
  injection hd2 with hdd
  subst hdd
  refine ⟨(build_figs_traces_opts smooth d1 o1 o2 reg lbl f).1,
    (build_figs_traces_opts smooth d1 o1 o2 reg lbl f).2, ?_⟩
  rintro rfl
  constructor
  · rw [build_figs_max_shapes]
    simp [allOff]
  · rw [build_figs_idle_shapes]
    simp [allOff]

/-- Witness for C6 at a concrete input: all-off versus all-on toggles. -/
theorem bands_pure_overlay_witness :
    figs_good_off.1.traces = figs_good.1.traces ∧
    figs_good_off.2.traces = figs_good.2.traces ∧
    (allOff = allOff → figs_good_off.1.shapes = [] ∧ figs_good_off.2.shapes = []) :=
  bands_pure_overlay (fun l => l) df_max_good df_idle_good allOff allOn
    "" "Rated RPM (1.000)" 1 figs_good_off figs_good rfl rfl

/-- C7: the correction factor reaches the metered band only: across any two
factor/label selections the traces, the idle chart and the non-metered max
bands are identical, the non-metered max bands are always 21-24 or 28-30,
and idle shapes are always 8-10 (the turbo idle band 7-9 is never drawn). -/
theorem correction_metered_only (smooth : List ℚ → List ℚ)
    (dfm dfi : DataFrame) (opts : Opts) (reg lbl lbl2 : String) (f f2 : ℚ)
    (figs figs2 : Figure × Figure)
    (h1 : create_plots smooth dfm dfi opts reg lbl f = Except.ok figs)
    (h2 : create_plots smooth dfm dfi opts reg lbl2 f2 = Except.ok figs2) :
    figs.1.traces = figs2.1.traces ∧ figs.2.traces = figs2.2.traces ∧
    figs.2.shapes = figs2.2.shapes ∧
    figs.1.shapes.filter (fun s => s.fillcolor != "#00BFFF")
      = figs2.1.shapes.filter (fun s => s.fillcolor != "#00BFFF") ∧
    (∀ s ∈ figs.1.shapes, s.fillcolor ≠ "#00BFFF" →
      (s.y0 = 21 ∧ s.y1 = 24) ∨ (s.y0 = 28 ∧ s.y1 = 30)) ∧
    (∀ s ∈ figs.2.shapes, s.y0 = 8 ∧ s.y1 = 10) := by
  obtain ⟨d1, hd1, rfl⟩ := (create_plots_ok_iff ..).mp h1
  obtain ⟨d2, hd2, rfl⟩ := (create_plots_ok_iff ..).mp h2
  rw [hd1] at hd2
  injection hd2 with hdd
  subst hdd
  refine ⟨(build_figs_traces_factor smooth d1 opts reg lbl lbl2 f f2).1,
    (build_figs_traces_factor smooth d1 opts reg lbl lbl2 f f2).2.1,
    (build_figs_traces_factor smooth d1 opts reg lbl lbl2 f f2).2.2.1,
    ?_, ?_, ?_⟩
  · rw [build_figs_max_shapes, build_figs_max_shapes]
    cases hs : opts.un_s <;> cases hp : opts.un_p <;> cases hm : opts.met_b <;>
      simp [band_shape, List.filter_append]
  · intro s hs hcol
    rcases max_shape_cases smooth d1 opts reg lbl f s hs with rfl | rfl | rfl
    · exact Or.inl ⟨rfl, rfl⟩
    · exact Or.inr ⟨rfl, rfl⟩
    · exact absurd rfl hcol
  · intro s hs
    rcases idle_shape_cases smooth d1 opts reg lbl f s hs with rfl
    exact ⟨rfl, rfl⟩

/-- Witness for C7 at a concrete input: no correction versus the -120 RPM
correction. -/
theorem correction_metered_only_witness :
    figs_good.1.traces = figs_corr.1.traces ∧
    figs_good.2.traces = figs_corr.2.traces ∧
    figs_good.2.shapes = figs_corr.2.shapes ∧
    figs_good.1.shapes.filter (fun s => s.fillcolor != "#00BFFF")
      = figs_corr.1.shapes.filter (fun s => s.fillcolor != "#00BFFF") ∧
    (∀ s ∈ figs_good.1.shapes, s.fillcolor ≠ "#00BFFF" →
      (s.y0 = 21 ∧ s.y1 = 24) ∨ (s.y0 = 28 ∧ s.y1 = 30)) ∧
    (∀ s ∈ figs_good.2.shapes, s.y0 = 8 ∧ s.y1 = 10) :=
  correction_metered_only (fun l => l) df_max_good df_idle_good allOn
    "" "Rated RPM (1.000)" "-120 RPM (.946)" 1 (946 / 1000)
    figs_good figs_corr rfl rfl

/-- C5: with the metered toggle on, the two numeric min/max callouts
(corrected bounds at two decimals, placed at x 0.88) are rendered exactly
when the factor differs from 1.0; for factor 1.0 every annotation sits at
the band-label position 0.01, while the metered band rectangle and its
label are drawn in every case. -/
theorem metered_callouts_iff (smooth : List ℚ → List ℚ) (dfm dfi : DataFrame)
    (opts : Opts) (reg lbl : String) (f : ℚ) (figs : Figure × Figure)
    (hmet : opts.met_b = true)
    (hok : create_plots smooth dfm dfi opts reg lbl f = Except.ok figs) :
    (f = 1 → ∀ a ∈ figs.1.annots, a.xpos = 1 / 100) ∧
    (f ≠ 1 →
      add_high_vis_label ((213 / 10) * f) ("Max: " ++ format2 ((213 / 10) * f))
          "#00008B" (22 / 25) ∈ figs.1.annots ∧
      add_high_vis_label (19 * f) ("Min: " ++ format2 (19 * f))
          "#00008B" (22 / 25) ∈ figs.1.annots) ∧
    (∃ s ∈ figs.1.shapes, s.fillcolor = "#00BFFF"
        ∧ s.y0 = 19 * f ∧ s.y1 = (213 / 10) * f) ∧
    add_high_vis_label ((19 * f + (213 / 10) * f) / 2)
        ("METERED (" ++ lbl ++ ")") "#00008B" (1 / 100) ∈ figs.1.annots := by
  obtain ⟨d0, hd, rfl⟩ := (create_plots_ok_iff ..).mp hok
  refine ⟨?_, ?_, ?_, ?_⟩
  · rintro rfl a ha
    have hx : a.xpos ∈
        ((build_figs smooth d0 opts reg lbl 1).1.annots.map Annot.xpos) :=
      List.mem_map_of_mem _ ha
    rw [build_figs_max_annots, hmet] at hx
    cases hs : opts.un_s <;> cases hp : opts.un_p <;>
        simp [hs, hp, add_high_vis_label] at hx <;>
      rw [hx] <;> norm_num
  · intro hf
    rw [build_figs_max_annots, hmet]
    constructor <;> simp [hf]
  · refine ⟨band_shape d0.t_m (19 * f) ((213 / 10) * f) "#00BFFF", ?_,
      rfl, rfl, rfl⟩
    rw [build_figs_max_shapes, hmet]
    simp
  · rw [build_figs_max_annots, hmet]
    simp

/-- Witness for C5 at a concrete input with the default factor 1.0. -/
theorem metered_callouts_iff_witness :
    ((1 : ℚ) = 1 → ∀ a ∈ figs_good.1.annots, a.xpos = 1 / 100) ∧
    ((1 : ℚ) ≠ 1 →
      add_high_vis_label ((213 / 10) * 1) ("Max: " ++ format2 ((213 / 10) * 1))
          "#00008B" (22 / 25) ∈ figs_good.1.annots ∧
      add_high_vis_label (19 * 1) ("Min: " ++ format2 (19 * 1))
          "#00008B" (22 / 25) ∈ figs_good.1.annots) ∧
    (∃ s ∈ figs_good.1.shapes, s.fillcolor = "#00BFFF"
        ∧ s.y0 = 19 * 1 ∧ s.y1 = (213 / 10) * 1) ∧
    add_high_vis_label ((19 * 1 + (213 / 10) * 1) / 2)
        ("METERED (" ++ "Rated RPM (1.000)" ++ ")") "#00008B" (1 / 100)
      ∈ figs_good.1.annots :=
  metered_callouts_iff (fun l => l) df_max_good df_idle_good allOn
    "" "Rated RPM (1.000)" 1 figs_good rfl rfl

/-- C4: tie-break determinism: the index the engine marks (`argmax` on the
max-RPM chart, `argmin` on the idle chart, applied to raw and smoothed
series alike) is in range, and among all indices attaining the same extreme
value it is the first occurring one; the raw-extremum marker traces of the
two charts are placed at exactly these indices. -/
theorem extremum_tie_break (l : List ℚ) (i : ℕ) (hne : l ≠ [])
    (hi : i < l.length) :
    argmax l < l.length ∧ argmin l < l.length ∧
    (l.getD i 0 = l.getD (argmax l) 0 → argmax l ≤ i) ∧
    (l.getD i 0 = l.getD (argmin l) 0 → argmin l ≤ i) ∧
    (∀ (smooth : List ℚ → List ℚ) (d : RunData) (opts : Opts)
        (reg lbl : String) (f : ℚ),
      ((build_figs smooth d opts reg lbl f).1.traces.getD 6 dummyTrace).x
          = [d.t_m.getD (argmax d.u_mq) (Val.num 0)] ∧
      ((build_figs smooth d opts reg lbl f).2.traces.getD 3 dummyTrace).x
          = [d.t_i.getD (argmin d.u_iq) (Val.num 0)]) :=
  ⟨argmax_lt_length l hne, argmin_lt_length l hne,
   argmax_le_of_getD_eq l i hi, argmin_le_of_getD_eq l i hi,
   fun _ _ _ _ _ _ => ⟨rfl, rfl⟩⟩

/-- Witness for C4 on the synthetic idle series whose minimum occurs at
indices 1 and 3: the engine selects index 1. -/
theorem extremum_tie_break_witness :
    argmin ([9, 8, 9, 8, 9, 9, 9, 9, 9] : List ℚ) = 1 ∧
    (([9, 8, 9, 8, 9, 9, 9, 9, 9] : List ℚ).getD 3 0
        = ([9, 8, 9, 8, 9, 9, 9, 9, 9] : List ℚ).getD
            (argmin ([9, 8, 9, 8, 9, 9, 9, 9, 9] : List ℚ)) 0 →
      argmin ([9, 8, 9, 8, 9, 9, 9, 9, 9] : List ℚ) ≤ 3) :=
  ⟨by decide,
   (extremum_tie_break ([9, 8, 9, 8, 9, 9, 9, 9, 9] : List ℚ) 3
     (by decide) (by decide)).2.2.2.1⟩

/-- C8: marker placement: each smoothed and raw marker of the max-RPM chart
sits at the first-maximum index of its series, the idle markers at the
first-minimum index; the marked value is the global extremum; each smoothed
marker is a single point; on the spike series `[10,10,10,50,10,10,10,10,10]`
the raw-maximum marker lands on index 3 (time value 3). -/
theorem extremum_marker_placement (smooth : List ℚ → List ℚ) (d : RunData)
    (opts : Opts) (reg lbl : String) (f : ℚ) (i j : ℕ)
    (hi : i < (smooth d.u_mq).length) (hj : j < d.u_iq.length) :
    (create_plots (fun l => l) df_max_spike df_idle_good allOn ""
        "Rated RPM (1.000)" 1).map
        (fun figs => (figs.1.traces.getD 6 dummyTrace).x)
      = Except.ok [Val.num 3] ∧
    argmax [10, 10, 10, 50, 10, 10, 10, 10, 10] = 3 ∧
    ((build_figs smooth d opts reg lbl f).1.traces.getD 4 dummyTrace).x
      = [d.t_m.getD (argmax (smooth d.u_mq)) (Val.num 0)] ∧
    ((build_figs smooth d opts reg lbl f).1.traces.getD 5 dummyTrace).x
      = [d.t_m.getD (argmax (smooth d.mt_mq)) (Val.num 0)] ∧
    ((build_figs smooth d opts reg lbl f).1.traces.getD 7 dummyTrace).x
      = [d.t_m.getD (argmax d.mt_mq) (Val.num 0)] ∧
    ((build_figs smooth d opts reg lbl f).2.traces.getD 2 dummyTrace).x
      = [d.t_i.getD (argmin (smooth d.u_iq)) (Val.num 0)] ∧
    ((build_figs smooth d opts reg lbl f).1.traces.getD 4 dummyTrace).x.length
      = 1 ∧
    ((build_figs smooth d opts reg lbl f).2.traces.getD 2 dummyTrace).x.length
      = 1 ∧
    (smooth d.u_mq).getD i 0
      ≤ (smooth d.u_mq).getD (argmax (smooth d.u_mq)) 0 ∧
    d.u_iq.getD (argmin d.u_iq) 0 ≤ d.u_iq.getD j 0 :=
  ⟨rfl, by decide, rfl, rfl, rfl, rfl, rfl, rfl,
   getD_argmax_le _ i hi, le_getD_argmin _ j hj⟩

/-- Witness for C8 at the concrete spike input. -/
theorem extremum_marker_placement_witness :
    (create_plots (fun l => l) df_max_spike df_idle_good allOn ""
        "Rated RPM (1.000)" 1).map
        (fun figs => (figs.1.traces.getD 6 dummyTrace).x)
      = Except.ok [Val.num 3] :=
  (extremum_marker_placement (fun l => l) runDataSpike allOn ""
    "Rated RPM (1.000)" 1 0 0 (by decide) (by decide)).1

/-- C9: the export block produces a two-page landscape A4 report downloaded
as `<registration>_Report.pdf`, each page carrying the chart image at
1200x700 with scale 2, a bold title `<chart title> | <registration>` and the
subtitle `Condition: <correction label> | Generated: <timestamp>`; the
first page title contains the literal substring `Max RPM` and the
registration value. -/
theorem pdf_report_format (f_m f_idle : Figure) (reg rpm ts : String) :
    (pdf_export f_m f_idle reg rpm ts).filename = reg ++ "_Report.pdf" ∧
    (pdf_export f_m f_idle reg rpm ts).orientation = "L" ∧
    (pdf_export f_m f_idle reg rpm ts).pageFormat = "A4" ∧
    (pdf_export f_m f_idle reg rpm ts).mime = "application/pdf" ∧
    (pdf_export f_m f_idle reg rpm ts).pages.length = 2 ∧
    (pdf_export f_m f_idle reg rpm ts).pages.map PdfPage.title
      = ["Max RPM | " ++ reg, "Idle RPM | " ++ reg] ∧
    (pdf_export f_m f_idle reg rpm ts).pages.map PdfPage.subtitle
      = ["Condition: " ++ rpm ++ " | Generated: " ++ ts,
         "Condition: " ++ rpm ++ " | Generated: " ++ ts] ∧
    (pdf_export f_m f_idle reg rpm ts).pages.map PdfPage.titleBold
      = [true, true] ∧
    (pdf_export f_m f_idle reg rpm ts).pages.map PdfPage.imgWidth
      = [1200, 1200] ∧
    (pdf_export f_m f_idle reg rpm ts).pages.map PdfPage.imgHeight
      = [700, 700] ∧
    (pdf_export f_m f_idle reg rpm ts).pages.map PdfPage.imgScale = [2, 2] ∧
    (pdf_export f_m f_idle reg rpm ts).pages.map PdfPage.figure
      = [f_m, f_idle] ∧
    contains_sub "Max RPM"
      (((pdf_export f_m f_idle reg rpm ts).pages.map PdfPage.title).getD 0 "") ∧
    contains_sub reg
      (((pdf_export f_m f_idle reg rpm ts).pages.map PdfPage.title).getD 0 "") := by
  refine ⟨rfl, rfl, rfl, rfl, rfl, rfl, rfl, rfl, rfl, rfl, rfl, rfl, ?_, ?_⟩
  · refine ⟨"", " | " ++ reg, ?_⟩
    show "Max RPM | " ++ reg = "" ++ "Max RPM" ++ (" | " ++ reg)
    rw [String.empty_append, ← String.append_assoc]
    rfl
  · refine ⟨"Max RPM | ", "", ?_⟩
    show "Max RPM | " ++ reg = "Max RPM | " ++ reg ++ ""
    rw [String.append_empty]

theorem savgol_input_error_cases (u : List Val) (e : String)
    (h : savgol_input u = Except.error e) :
    (∃ s, Val.str s ∈ u ∧ e = "could not convert string to float: " ++ s) ∨
    e = window_err := by
  unfold savgol_input at h
  cases hf : to_float_list u with
  | error e2 =>
    rw [hf] at h
    dsimp only at h
    injection h with he
    subst he
    exact Or.inl (to_float_list_error u e2 hf)
  | ok qs =>
    rw [hf] at h
    dsimp only at h
    by_cases hl : qs.length < 9
    · rw [if_pos hl] at h
      injection h with he
      exact Or.inr he.symm
    · rw [if_neg hl] at h
      exact absurd h (by simp)

theorem exceptBind_ok {α β : Type} (a : α) (g : α → Except String β) :
    (Except.ok a >>= g) = g a := rfl

theorem exceptBind_error {α β : Type} (e : String) (g : α → Except String β) :
    ((Except.error e : Except String α) >>= g) = Except.error e := rfl

theorem getCol_none (df : DataFrame) (n : String) (h : df.lookup n = none) :
    df.getCol n = Except.error ("KeyError: " ++ n) := by
  unfold DataFrame.getCol
  rw [h]

theorem getCol_some (df : DataFrame) (n : String) (c : List Val)
    (h : df.lookup n = some c) : df.getCol n = Except.ok c := by
  unfold DataFrame.getCol
  rw [h]

/-- C1 (amended): every read or cast `create_plots` performs aborts the
whole computation, in source order, with a message identifying the failing
column, value or condition, and no chart is produced: a missing `Time (s)`,
`UNMETERED [PSI]` or `METERED [PSI]` column of the max-RPM table and a
missing `Time (s)` or `UNMETERED [PSI]` column of the idle table each abort
with a `KeyError` naming that column; a failing smoothing cast of any of
the three smoothed pressure series (max unmetered, max metered, idle
unmetered) aborts with the raised message, which names either the first
non-numeric value of that series or the window-length condition; an
all-numeric pressure series shorter than the 9-sample window always fails
its cast with the window-length message; and a max-RPM table without
`METERED [PSI]` never yields figures whatever else holds.  (Non-numeric
values confined to the `Time (s)` column do not abort: see the
counterexample.) -/
theorem invalid_input_aborts (smooth : List ℚ → List ℚ) (dfm dfi : DataFrame)
    (opts : Opts) (reg lbl : String) (f : ℚ) (t u mt ti ui : List Val)
    (uq mtq : List ℚ) (e : String) :
    (dfm.lookup "Time (s)" = none →
      create_plots smooth dfm dfi opts reg lbl f
        = Except.error ("KeyError: " ++ "Time (s)")) ∧
    (dfm.lookup "Time (s)" = some t →
      dfm.lookup "UNMETERED [PSI]" = none →
      create_plots smooth dfm dfi opts reg lbl f
        = Except.error ("KeyError: " ++ "UNMETERED [PSI]")) ∧
    (dfm.lookup "Time (s)" = some t →
      dfm.lookup "UNMETERED [PSI]" = some u →
      dfm.lookup "METERED [PSI]" = none →
      create_plots smooth dfm dfi opts reg lbl f
        = Except.error ("KeyError: " ++ "METERED [PSI]")) ∧
    (dfm.lookup "Time (s)" = some t →
      dfm.lookup "UNMETERED [PSI]" = some u →
      dfm.lookup "METERED [PSI]" = some mt →
      savgol_input u = Except.error e →
      create_plots smooth dfm dfi opts reg lbl f = Except.error e) ∧
    (dfm.lookup "Time (s)" = some t →
      dfm.lookup "UNMETERED [PSI]" = some u →
      dfm.lookup "METERED [PSI]" = some mt →
      savgol_input u = Except.ok uq →
      savgol_input mt = Except.error e →
      create_plots smooth dfm dfi opts reg lbl f = Except.error e) ∧
    (dfm.lookup "Time (s)" = some t →
      dfm.lookup "UNMETERED [PSI]" = some u →
      dfm.lookup "METERED [PSI]" = some mt →
      savgol_input u = Except.ok uq →
      savgol_input mt = Except.ok mtq →
      dfi.lookup "Time (s)" = none →
      create_plots smooth dfm dfi opts reg lbl f
        = Except.error ("KeyError: " ++ "Time (s)")) ∧
    (dfm.lookup "Time (s)" = some t →
      dfm.lookup "UNMETERED [PSI]" = some u →
      dfm.lookup "METERED [PSI]" = some mt →
      savgol_input u = Except.ok uq →
      savgol_input mt = Except.ok mtq →
      dfi.lookup "Time (s)" = some ti →
      dfi.lookup "UNMETERED [PSI]" = none →
      create_plots smooth dfm dfi opts reg lbl f
        = Except.error ("KeyError: " ++ "UNMETERED [PSI]")) ∧
    (dfm.lookup "Time (s)" = some t →
      dfm.lookup "UNMETERED [PSI]" = some u →
      dfm.lookup "METERED [PSI]" = some mt →
      savgol_input u = Except.ok uq →
      savgol_input mt = Except.ok mtq →
      dfi.lookup "Time (s)" = some ti →
      dfi.lookup "UNMETERED [PSI]" = some ui →
      savgol_input ui = Except.error e →
      create_plots smooth dfm dfi opts reg lbl f = Except.error e) ∧
    (savgol_input u = Except.error e →
      (∃ s, Val.str s ∈ u ∧ e = "could not convert string to float: " ++ s) ∨
      e = window_err) ∧
    ((∀ v ∈ u, ∃ q, v = Val.num q) → u.length < 9 →
      savgol_input u = Except.error window_err) ∧
    (dfm.lookup "METERED [PSI]" = none →
      exceptOk (create_plots smooth dfm dfi opts reg lbl f) = false) := by
  refine ⟨?_, ?_, ?_, ?_, ?_, ?_, ?_, ?_, savgol_input_error_cases u e,
    ?_, ?_⟩
  · intro h1
    rw [create_plots_error_iff]
    simp only [read_inputs, getCol_none dfm "Time (s)" h1, exceptBind_error]
  · intro h1 h2
    rw [create_plots_error_iff]
    simp only [read_inputs, getCol_some dfm "Time (s)" t h1, exceptBind_ok,
      getCol_none dfm "UNMETERED [PSI]" h2, exceptBind_error]
  · intro h1 h2 h3
    rw [create_plots_error_iff]
    simp only [read_inputs, getCol_some dfm "Time (s)" t h1,
      getCol_some dfm "UNMETERED [PSI]" u h2, exceptBind_ok,
      getCol_none dfm "METERED [PSI]" h3, exceptBind_error]
  · intro h1 h2 h3 h4
    rw [create_plots_error_iff]
    simp only [read_inputs, getCol_some dfm "Time (s)" t h1,
      getCol_some dfm "UNMETERED [PSI]" u h2,
      getCol_some dfm "METERED [PSI]" mt h3, exceptBind_ok, h4,
      exceptBind_error]
  · intro h1 h2 h3 h4 h5
    rw [create_plots_error_iff]
    simp only [read_inputs, getCol_some dfm "Time (s)" t h1,
      getCol_some dfm "UNMETERED [PSI]" u h2,
      getCol_some dfm "METERED [PSI]" mt h3, exceptBind_ok, h4, h5,
      exceptBind_error]
  · intro h1 h2 h3 h4 h5 h6
    rw [create_plots_error_iff]
    simp only [read_inputs, getCol_some dfm "Time (s)" t h1,
      getCol_some dfm "UNMETERED [PSI]" u h2,
      getCol_some dfm "METERED [PSI]" mt h3, exceptBind_ok, h4, h5,
      getCol_none dfi "Time (s)" h6, exceptBind_error]
  · intro h1 h2 h3 h4 h5 h6 h7
    rw [create_plots_error_iff]
    simp only [read_inputs, getCol_some dfm "Time (s)" t h1,
      getCol_some dfm "UNMETERED [PSI]" u h2,
      getCol_some dfm "METERED [PSI]" mt h3, exceptBind_ok, h4, h5,
      getCol_some dfi "Time (s)" ti h6,
      getCol_none dfi "UNMETERED [PSI]" h7, exceptBind_error]
  · intro h1 h2 h3 h4 h5 h6 h7 h8
    rw [create_plots_error_iff]
    simp only [read_inputs, getCol_some dfm "Time (s)" t h1,
      getCol_some dfm "UNMETERED [PSI]" u h2,
      getCol_some dfm "METERED [PSI]" mt h3, exceptBind_ok, h4, h5,
      getCol_some dfi "Time (s)" ti h6,
      getCol_some dfi "UNMETERED [PSI]" ui h7, h8, exceptBind_error]
  · intro hnum hlen
    obtain ⟨qs, hok, hqlen⟩ := to_float_list_all_num u hnum
    unfold savgol_input
    rw [hok]
    dsimp only
    rw [if_pos (by rw [hqlen]; exact hlen)]
  · intro hnone
    cases hc : create_plots smooth dfm dfi opts reg lbl f with
    | error e2 => rfl
    | ok figs =>
      obtain ⟨d0, hd, _⟩ := (create_plots_ok_iff ..).mp hc
      have hmt2 := ((read_inputs_ok_iff dfm dfi d0).mp hd).2.2.1
      rw [hnone] at hmt2
      exact absurd hmt2 (by simp)

/-- Counterexample to C1 as stated: a max-RPM table whose `Time (s)` column
holds the non-numeric value `abc` is an invalid input, yet `create_plots`
succeeds and produces both charts instead of aborting. -/
theorem invalid_input_aborts_cex :
    Val.str "abc" ∈ (df_max_strTime.lookup "Time (s)").getD [] ∧
    exceptOk (create_plots (fun l => l) df_max_strTime df_idle_good allOn
        "G-ABCD" "Rated RPM (1.000)" 1) = true :=
  ⟨by decide, rfl⟩

/-- Witness for the amended C1 at concrete invalid inputs: each required
column missing from either table, a non-numeric value in each of the three
smoothed pressure columns (one via a one-row table), and the
missing-metered case all abort with the corresponding message. -/
theorem invalid_input_aborts_witness :
    create_plots (fun l => l) df_max_noTime df_idle_good allOn "" "" 1
      = Except.error ("KeyError: " ++ "Time (s)") ∧
    create_plots (fun l => l) df_max_noUnm df_idle_good allOn "" "" 1
      = Except.error ("KeyError: " ++ "UNMETERED [PSI]") ∧
    create_plots (fun l => l) df_max_noMet df_idle_good allOn "" "" 1
      = Except.error ("KeyError: " ++ "METERED [PSI]") ∧
    create_plots (fun l => l) df_max_badVal df_idle_good allOn "" "" 1
      = Except.error ("could not convert string to float: " ++ "bad") ∧
    create_plots (fun l => l) df_max_badMet df_idle_good allOn "" "" 1
      = Except.error ("could not convert string to float: " ++ "bad") ∧
    create_plots (fun l => l) df_max_good df_idle_noTime allOn "" "" 1
      = Except.error ("KeyError: " ++ "Time (s)") ∧
    create_plots (fun l => l) df_max_good df_idle_noUnm allOn "" "" 1
      = Except.error ("KeyError: " ++ "UNMETERED [PSI]") ∧
    create_plots (fun l => l) df_max_good df_idle_badVal allOn "" "" 1
      = Except.error ("could not convert string to float: " ++ "bad") ∧
    create_plots (fun l => l) df_max_short df_idle_good allOn "" "" 1
      = Except.error window_err ∧
    savgol_input [Val.num 29] = Except.error window_err ∧
    exceptOk (create_plots (fun l => l) df_max_noMet df_idle_good allOff
        "" "" 1) = false :=
  ⟨(invalid_input_aborts (fun l => l) df_max_noTime df_idle_good allOn
      "" "" 1 [] [] [] [] [] [] [] "").1 rfl,
   (invalid_input_aborts (fun l => l) df_max_noUnm df_idle_good allOn
      "" "" 1 timeCol [] [] [] [] [] [] "").2.1 rfl rfl,
   (invalid_input_aborts (fun l => l) df_max_noMet df_idle_good allOn
      "" "" 1 timeCol (constCol 29) [] [] [] [] [] "").2.2.1 rfl rfl rfl,
   (invalid_input_aborts (fun l => l) df_max_badVal df_idle_good allOn
      "" "" 1 timeCol badValCol (constCol 20) [] [] [] []
      ("could not convert string to float: " ++ "bad")).2.2.2.1
      rfl rfl rfl rfl,
   (invalid_input_aborts (fun l => l) df_max_badMet df_idle_good allOn
      "" "" 1 timeCol (constCol 29) badValCol [] [] (List.replicate 9 29) []
      ("could not convert string to float: " ++ "bad")).2.2.2.2.1
      rfl rfl rfl rfl rfl,
   (invalid_input_aborts (fun l => l) df_max_good df_idle_noTime allOn
      "" "" 1 timeCol (constCol 29) (constCol 20) [] []
      (List.replicate 9 29) (List.replicate 9 20) "").2.2.2.2.2.1
      rfl rfl rfl rfl rfl rfl,
   (invalid_input_aborts (fun l => l) df_max_good df_idle_noUnm allOn
      "" "" 1 timeCol (constCol 29) (constCol 20) timeCol []
      (List.replicate 9 29) (List.replicate 9 20) "").2.2.2.2.2.2.1
      rfl rfl rfl rfl rfl rfl rfl,
   (invalid_input_aborts (fun l => l) df_max_good df_idle_badVal allOn
      "" "" 1 timeCol (constCol 29) (constCol 20) timeCol badValCol
      (List.replicate 9 29) (List.replicate 9 20)
      ("could not convert string to float: " ++ "bad")).2.2.2.2.2.2.2.1
      rfl rfl rfl rfl rfl rfl rfl rfl,
   (invalid_input_aborts (fun l => l) df_max_short df_idle_good allOn
      "" "" 1 [Val.num 0] [Val.num 29] [Val.num 20] [] [] [] []
      window_err).2.2.2.1 rfl rfl rfl rfl,
   (invalid_input_aborts (fun l => l) df_max_short df_idle_good allOn
      "" "" 1 [] [Val.num 29] [] [] [] [] []
      window_err).2.2.2.2.2.2.2.2.2.1
      (fun v hv => ⟨29, by simpa using hv⟩) (by decide),
   (invalid_input_aborts (fun l => l) df_max_noMet df_idle_good allOff
      "" "" 1 [] [] [] [] [] [] [] "").2.2.2.2.2.2.2.2.2.2 rfl⟩
